import Mathlib

/-!
Shallow embedding of the SMAE analytical pipeline (`src/smae`), covering the
domain model (`smae/models/enums.py`, `smae/models/events.py`,
`smae/models/convergence.py`) and the seven-stage pipeline
(`smae/engine/pipeline.py`).  Python floats are modelled as exact rationals,
Python `dict` as association lists with last-binding-wins lookup, exceptions
as `Except`, and in-place mutation as pure list maps.
-/

namespace SMAE

/-- The eight metabolic networks (`MetabolicNetwork` in `enums.py`). -/
inductive MetabolicNetwork where
  | CARBON | WATER | SOIL | MINERAL
  | ATMOSPHERIC | BIODIVERSITY | OCEAN | LABOR
  deriving DecidableEq, Repr

/-- Six-layer analytical schema (`AnalyticalLayer`). -/
inductive AnalyticalLayer where
  | STOCK | FLOW | ACCUMULATION | EXTERNALITY | GOVERNANCE | CONTESTATION
  deriving DecidableEq, Repr

/-- Four-node event decomposition (`OntologyNode`). -/
inductive OntologyNode where
  | APPROPRIATION | DISPLACEMENT | GOVERNANCE | RESISTANCE
  deriving DecidableEq, Repr

/-- Triage classification (`AlertLevel`), declared lowest first. -/
inductive AlertLevel where
  | WATCH | MONITOR | ALERT | CRITICAL | SYSTEMIC
  deriving DecidableEq, Repr

/-- Severity rank of an alert level, following the declaration order of the
`AlertLevel` enum (WATCH is the lowest level). -/
def alertRank : AlertLevel → Nat
  | .WATCH => 0
  | .MONITOR => 1
  | .ALERT => 2
  | .CRITICAL => 3
  | .SYSTEMIC => 4

/-- Threshold crossing status (`ThresholdStatus`). -/
inductive ThresholdStatus where
  | BELOW | APPROACHING | EXCEEDED
  deriving DecidableEq, Repr

/-- Threshold categories (`ThresholdCategory`). -/
inductive ThresholdCategory where
  | ABSOLUTE | RATE_OF_CHANGE | RELATIONAL | GOVERNANCE_DECAY
  deriving DecidableEq, Repr

/-- Source hierarchy tiers (`SourceTier`). -/
inductive SourceTier where
  | FRONTLINE_EJ | INDIGENOUS_MONITORING | UN_OPERATIONAL
  | SPECIALIZED_RESEARCH | ACADEMIC_PEER_REVIEWED
  | INVESTIGATIVE_MEDIA | GOVERNMENT_REGULATORY
  deriving DecidableEq, Repr

/-- Structural coupling patterns (`CouplingPattern`). -/
inductive CouplingPattern where
  | EXTRACTIVE_CASCADE | REGULATORY_ARBITRAGE | GREEN_TRANSITION_PARADOX
  | ATMOSPHERIC_ENCLOSURE | DEBT_NATURE_TRAP | SACRIFICE_ZONE_SPIRAL
  | MILITARIZED_CONSERVATION | FOOD_SOVEREIGNTY_EROSION
  | HUMANITARIAN_SECURITY_FEEDBACK | KNOWLEDGE_ENCLOSURE | INFRASTRUCTURE_LOCKIN
  deriving DecidableEq, Repr

/-- A calendar date (`datetime.date`), kept abstract as year/month/day. -/
structure PyDate where
  year : Int
  month : Int
  day : Int
  deriving DecidableEq, Repr

/-- A timestamp (`datetime.datetime`). -/
structure PyDateTime where
  year : Int
  month : Int
  day : Int
  hour : Int
  minute : Int
  deriving DecidableEq, Repr

/-- A source citation (`Source` in `events.py`). -/
structure Source where
  organization : String
  report_name : String
  doi : Option String := none
  report_id : Option String := none
  tier : SourceTier
  access_date : PyDate
  provisional : Bool := false
  deriving DecidableEq, Repr

/-- An actor (`Actor` in `events.py`). -/
structure Actor where
  name : String
  actor_type : String
  jurisdiction : Option String := none
  role : String
  deriving DecidableEq, Repr

/-- A single threshold metric (`ThresholdMetric` in `events.py`);
float fields are modelled as exact rationals. -/
structure ThresholdMetric where
  name : String
  category : ThresholdCategory
  networks : List MetabolicNetwork
  baseline_value : ℚ
  baseline_date : PyDate
  delta : ℚ
  current_value : ℚ
  threshold_value : ℚ
  unit : String
  status : ThresholdStatus
  deriving DecidableEq, Repr

/-- A detected threshold crossing (`ThresholdCrossing` in `events.py`). -/
structure ThresholdCrossing where
  metric : ThresholdMetric
  detected_at : PyDateTime
  alert_level : AlertLevel
  notes : String := ""
  deriving DecidableEq, Repr

/-- A tagged analytical event (`Event` in `events.py`). -/
structure Event where
  id : String
  title : String
  summary : String
  event_date : PyDate
  detected_at : PyDateTime
  country : String
  region : Option String := none
  coordinates : Option (ℚ × ℚ) := none
  networks : List MetabolicNetwork
  layers : List AnalyticalLayer
  nodes : List OntologyNode
  coupling_patterns : List CouplingPattern := []
  actors : List Actor := []
  threshold_crossings : List ThresholdCrossing := []
  sources : List Source := []
  alert_level : AlertLevel := .WATCH
  resistance_summary : Option String := none
  governance_context : Option String := none
  outlook_30d : Option String := none
  deriving DecidableEq, Repr

/-- `Event.convergence_index`: `len(set(self.networks))`, the number of
distinct networks on the event. -/
def Event.convergence_index (e : Event) : Nat :=
  e.networks.toFinset.card

/-- `Event.is_convergence_node`: `convergence_index >= 2`. -/
def Event.is_convergence_node (e : Event) : Bool :=
  2 ≤ e.convergence_index

/-- Multi-network convergence score (`ConvergenceScore` in `convergence.py`).
The Python `dict[MetabolicNetwork, float]` of severity weights is modelled as
an association list (later bindings overwrite earlier ones). -/
structure ConvergenceScore where
  event_id : String
  networks : List MetabolicNetwork
  severity_weights : List (MetabolicNetwork × ℚ) := []
  deriving DecidableEq, Repr

/-- `dict.get(n, 1.0)` on the severity-weight mapping: the last binding for
`n` wins, defaulting to `1.0`. -/
def weightGet (w : List (MetabolicNetwork × ℚ)) (n : MetabolicNetwork) : ℚ :=
  match w.reverse.find? (fun p => p.1 = n) with
  | some p => p.2
  | none => 1

/-- `ConvergenceScore.ci_score`: distinct-network count when unweighted,
otherwise the sum of weights (default 1.0) over the distinct networks. -/
def ConvergenceScore.ci_score (cs : ConvergenceScore) : ℚ :=
  if cs.severity_weights = [] then (cs.networks.toFinset.card : ℚ)
  else cs.networks.toFinset.sum (fun n => weightGet cs.severity_weights n)

/-- `ConvergenceScore.recommended_alert_level`: fixed breakpoints on
`ci_score`. -/
def ConvergenceScore.recommended_alert_level (cs : ConvergenceScore) : AlertLevel :=
  if 4 ≤ cs.ci_score then .SYSTEMIC
  else if 3 ≤ cs.ci_score then .CRITICAL
  else if 2 ≤ cs.ci_score then .ALERT
  else .MONITOR

/-- A Python exception escaping a source fetch, abstracted to its message. -/
abbrev FetchError := String

/-- The `DataSource` protocol: `fetch_events(since)` either returns a list of
events or raises. -/
abbrev DataSource := PyDate → Except FetchError (List Event)

/-- Stage 0 (`AnalyticalPipeline.intake`) exactly as coded: a sequential loop
awaiting each registered source in order and extending one accumulator; an
exception raised by any fetch propagates out of the loop. -/
def intake (sources : List DataSource) (since : PyDate) :
    Except FetchError (List Event) :=
  match sources with
  | [] => .ok []
  | s :: rest => do
      let events ← s since
      let more ← intake rest since
      pure (events ++ more)

/-- A `ValueError` raised by the Tag stage, carrying the offending event id
(`"Event {id} has no network assignment"` / `"... no layer assignment"`). -/
inductive TagError where
  | untaggedNetwork (id : String)
  | untaggedLayer (id : String)
  deriving DecidableEq, Repr

/-- The first tagging violation in the batch, scanning events in order and
the `networks` check before the `layers` check, as in `tag`'s loop. -/
def tagCheck : List Event → Option TagError
  | [] => none
  | e :: rest =>
      if e.networks = [] then some (.untaggedNetwork e.id)
      else if e.layers = [] then some (.untaggedLayer e.id)
      else tagCheck rest

/-- Stage 1 (`AnalyticalPipeline.tag`): raise on the first untagged event,
otherwise return the batch unchanged. -/
def tag (events : List Event) : Except TagError (List Event) :=
  match tagCheck events with
  | some err => .error err
  | none => .ok events

/-- The status recomputation of Stage 2, per metric:
`EXCEEDED` if `current_value > threshold_value`, else `APPROACHING` if
`current_value > threshold_value * 0.8`, else `BELOW`. -/
def evalMetric (m : ThresholdMetric) : ThresholdMetric :=
  if m.threshold_value < m.current_value then { m with status := .EXCEEDED }
  else if m.threshold_value * (4/5) < m.current_value then { m with status := .APPROACHING }
  else { m with status := .BELOW }

/-- The in-place update of one crossing's metric in Stage 2. -/
def evalCrossing (tc : ThresholdCrossing) : ThresholdCrossing :=
  { tc with metric := evalMetric tc.metric }

/-- The per-event body of Stage 2. -/
def evalEvent (e : Event) : Event :=
  { e with threshold_crossings := e.threshold_crossings.map evalCrossing }

/-- Stage 2 (`AnalyticalPipeline.evaluate_thresholds`): recompute every
attached crossing's metric status in place. -/
def evaluate_thresholds (events : List Event) : List Event :=
  events.map evalEvent

/-- The per-event body of Stage 3: a fresh unweighted score carrying the
event's id and network list. -/
def scoreOne (e : Event) : ConvergenceScore :=
  { event_id := e.id, networks := e.networks, severity_weights := [] }

/-- Stage 3 (`AnalyticalPipeline.score_convergence`). -/
def score_convergence (events : List Event) : List ConvergenceScore :=
  events.map scoreOne

/-- The sentinel written by Stage 4 for events with no resistance data. -/
def pendingSummary : String :=
  "[PENDING] Resistance data not yet collected for this event. Requires follow-up from frontline/EJ sources."

/-- Python truthiness of an `Optional[str]`: `None` and `""` are falsy. -/
def pyStrTruthy : Option String → Bool
  | none => false
  | some s => decide (s ≠ "")

/-- The per-event body of Stage 4: `if not event.resistance_summary: ...`. -/
def linkOne (e : Event) : Event :=
  if pyStrTruthy e.resistance_summary then e
  else { e with resistance_summary := some pendingSummary }

/-- Stage 4 (`AnalyticalPipeline.link_resistance`). -/
def link_resistance (events : List Event) : List Event :=
  events.map linkOne

/-- `{cs.event_id: cs for cs in convergence_scores}.get(id)`: the last score
whose `event_id` matches wins, as in a Python dict comprehension. -/
def scoreLookup (scores : List ConvergenceScore) (id : String) :
    Option ConvergenceScore :=
  scores.reverse.find? (fun cs => cs.event_id = id)

/-- `cs and cs.ci_score >= t`: false when the lookup returned `None`. -/
def csGE (cs : Option ConvergenceScore) (t : ℚ) : Bool :=
  match cs with
  | none => false
  | some c => decide (t ≤ c.ci_score)

/-- `has_exceeded`: some attached crossing has status EXCEEDED. -/
def anyExceededB (e : Event) : Bool :=
  e.threshold_crossings.any fun tc => decide (tc.metric.status = ThresholdStatus.EXCEEDED)

/-- `has_approaching`: some attached crossing has status APPROACHING. -/
def anyApproachingB (e : Event) : Bool :=
  e.threshold_crossings.any fun tc => decide (tc.metric.status = ThresholdStatus.APPROACHING)

/-- The per-event body of Stage 5 (`AnalyticalPipeline.triage`). -/
def triageOne (scores : List ConvergenceScore) (event : Event) : Event :=
  let cs := scoreLookup scores event.id
  if csGE cs 4 && anyExceededB event then { event with alert_level := .SYSTEMIC }
  else if csGE cs 3 && anyExceededB event then { event with alert_level := .CRITICAL }
  else if anyExceededB event then { event with alert_level := .ALERT }
  else if anyApproachingB event || csGE cs 2 then { event with alert_level := .MONITOR }
  else { event with alert_level := .WATCH }

/-- Stage 5 (`AnalyticalPipeline.triage`). -/
def triage (events : List Event) (convergence_scores : List ConvergenceScore) :
    List Event :=
  events.map (triageOne convergence_scores)

/-- Set `provisional = True` on every source of the event. -/
def markAllProvisional (e : Event) : Event :=
  { e with sources := e.sources.map fun s => { s with provisional := true } }

/-- The per-event body of Stage 7 (`AnalyticalPipeline.verify`). -/
def verifyOne (event : Event) : Event :=
  let source_tiers := (event.sources.map Source.tier).toFinset
  let e1 :=
    if event.sources.length < 2 then markAllProvisional event
    else if source_tiers.card < 2 then markAllProvisional event
    else event
  if !e1.actors.isEmpty && e1.sources.length < 3 then markAllProvisional e1 else e1

/-- Stage 7 (`AnalyticalPipeline.verify`). -/
def verify (events : List Event) : List Event :=
  events.map verifyOne

/-- Output of a complete pipeline run (`PipelineResult`). -/
structure PipelineResult where
  run_date : PyDate
  events : List Event := []
  threshold_crossings : List ThresholdCrossing := []
  convergence_nodes : List ConvergenceScore := []
  alert_events : List Event := []
  executive_summary : String := ""
  deriving DecidableEq, Repr

/-- Stages 1-7 of `AnalyticalPipeline.run`, starting from the merged intake
batch: Tag, Threshold, Converge, Resistance-link, Triage, Verify, then the
assembly of the result's derived collections by filtering. -/
def runStages (run_date : PyDate) (intake_events : List Event) :
    Except TagError PipelineResult :=
  match tag intake_events with
  | .error err => .error err
  | .ok events =>
      let events := evaluate_thresholds events
      let convergence_scores := score_convergence events
      let events := link_resistance events
      let events := triage events convergence_scores
      let events := verify events
      .ok { run_date := run_date
            events := events
            convergence_nodes :=
              convergence_scores.filter fun cs => decide (2 ≤ cs.ci_score)
            threshold_crossings :=
              events.flatMap fun event =>
                event.threshold_crossings.filter fun tc =>
                  decide (tc.metric.status = ThresholdStatus.EXCEEDED)
            alert_events :=
              events.filter fun e =>
                decide (e.alert_level = AlertLevel.ALERT)
                || decide (e.alert_level = AlertLevel.CRITICAL)
                || decide (e.alert_level = AlertLevel.SYSTEMIC) }

/-! ### Concrete sample data (mirroring `tests/test_pipeline.py` fixtures) -/

/-- The since-date used in the repository's intake tests. -/
def d0 : PyDate := ⟨2026, 2, 9⟩

/-- A fixed detection timestamp. -/
def dt0 : PyDateTime := ⟨2026, 2, 11, 12, 0⟩

/-- A tier-4 (specialized research) source, not provisional. -/
def srcA : Source :=
  { organization := "TestOrg", report_name := "Test Report",
    tier := .SPECIALIZED_RESEARCH, access_date := ⟨2026, 2, 11⟩ }

/-- A tier-3 (UN operational) source, not provisional. -/
def srcB : Source :=
  { organization := "TestOrg2", report_name := "Test Report 2",
    tier := .UN_OPERATIONAL, access_date := ⟨2026, 2, 11⟩ }

/-- A base valid event: one network, one layer, two sources, no crossings. -/
def evBase : Event :=
  { id := "test-001", title := "Test Event", summary := "Test event summary.",
    event_date := ⟨2026, 2, 11⟩, detected_at := dt0, country := "TestCountry",
    networks := [.CARBON], layers := [.FLOW], nodes := [.APPROPRIATION],
    sources := [srcA, srcB] }

/-- A crossing whose current value exceeds its threshold. -/
def tcExceeded : ThresholdCrossing :=
  { metric :=
      { name := "displacement_single_event", category := .ABSOLUTE,
        networks := [.CARBON], baseline_value := 50000,
        baseline_date := ⟨2025, 12, 1⟩, delta := 100000,
        current_value := 150000, threshold_value := 100000,
        unit := "persons", status := .EXCEEDED },
    detected_at := dt0, alert_level := .ALERT }

/-! ### Helper lemmas about Stage 2 -/

theorem evalMetric_only_status (m : ThresholdMetric) :
    evalMetric m = { m with status := (evalMetric m).status } := by
  unfold evalMetric
  split_ifs <;> rfl

theorem evalMetric_idem (m : ThresholdMetric) :
    evalMetric (evalMetric m) = evalMetric m := by
  unfold evalMetric
  split_ifs <;> simp_all

theorem evalCrossing_idem (tc : ThresholdCrossing) :
    evalCrossing (evalCrossing tc) = evalCrossing tc := by
  simp [evalCrossing, evalMetric_idem]

theorem evalEvent_idem (e : Event) : evalEvent (evalEvent e) = evalEvent e := by
  cases e
  simp only [evalEvent, List.map_map]
  congr 1
  induction ‹List ThresholdCrossing› with
  | nil => rfl
  | cons tc tcs ih => simp [Function.comp, evalCrossing_idem, ih]

/-- Claim C3: threshold evaluation sets each crossing's metric status as a
pure function of `(current_value, threshold_value)` — EXCEEDED iff
`current > threshold`, APPROACHING iff `current ≤ threshold` but
`current > 0.8 * threshold`, BELOW otherwise — changes nothing other than
the status field, and re-running the stage on its own output changes
nothing (idempotence). -/
theorem evaluate_thresholds_pure_idempotent :
    (∀ events, evaluate_thresholds (evaluate_thresholds events) = evaluate_thresholds events)
    ∧ (∀ m : ThresholdMetric,
        ((evalMetric m).status = ThresholdStatus.EXCEEDED ↔
          m.threshold_value < m.current_value)
        ∧ ((evalMetric m).status = ThresholdStatus.APPROACHING ↔
          m.current_value ≤ m.threshold_value ∧ m.threshold_value * (4/5) < m.current_value)
        ∧ ((evalMetric m).status = ThresholdStatus.BELOW ↔
          m.current_value ≤ m.threshold_value ∧ m.current_value ≤ m.threshold_value * (4/5))
        ∧ evalMetric m = { m with status := (evalMetric m).status })
    ∧ (∀ events, evaluate_thresholds events =
        events.map fun e =>
          { e with threshold_crossings := e.threshold_crossings.map evalCrossing }) := by
  refine ⟨?_, ?_, fun _ => rfl⟩
  · intro events
    induction events with
    | nil => rfl
    | cons e es ih =>
        simp only [evaluate_thresholds, List.map_cons] at ih ⊢
        rw [evalEvent_idem e, ih]
  · intro m
    refine ⟨?_, ?_, ?_, evalMetric_only_status m⟩
    · unfold evalMetric
      split_ifs with h1 h2
      · exact iff_of_true rfl h1
      · exact iff_of_false (fun h => nomatch h) h1
      · exact iff_of_false (fun h => nomatch h) h1
    · unfold evalMetric
      split_ifs with h1 h2
      · exact iff_of_false (fun h => nomatch h) (fun hp => absurd h1 (not_lt.mpr hp.1))
      · exact iff_of_true rfl ⟨not_lt.mp h1, h2⟩
      · exact iff_of_false (fun h => nomatch h) (fun hp => absurd hp.2 h2)
    · unfold evalMetric
      split_ifs with h1 h2
      · exact iff_of_false (fun h => nomatch h) (fun hp => absurd h1 (not_lt.mpr hp.1))
      · exact iff_of_false (fun h => nomatch h) (fun hp => absurd h2 (not_lt.mpr hp.2))
      · exact iff_of_true rfl ⟨not_lt.mp h1, not_lt.mp h2⟩

/-- Claim C7: `Event.convergence_index` is the cardinality of the event's
distinct-network set (equal to the length of the deduplicated network list),
invariant under reordering and duplication of the network list; and an
unweighted `ConvergenceScore.ci_score` — in particular every score built by
the Converge stage — equals that same distinct-network count. -/
theorem convergence_index_distinct_count :
    (∀ e : Event, e.convergence_index = e.networks.dedup.length)
    ∧ (∀ (e : Event) (l : List MetabolicNetwork), List.Perm e.networks l →
        Event.convergence_index { e with networks := l } = e.convergence_index)
    ∧ (∀ e : Event,
        Event.convergence_index { e with networks := e.networks ++ e.networks }
          = e.convergence_index)
    ∧ (∀ cs : ConvergenceScore, cs.severity_weights = [] →
        cs.ci_score = (cs.networks.toFinset.card : ℚ))
    ∧ (∀ e : Event, (scoreOne e).ci_score = (e.convergence_index : ℚ)) := by
  refine ⟨?_, ?_, ?_, ?_, ?_⟩
  · intro e
    exact List.card_toFinset e.networks
  · intro e l hperm
    simp only [Event.convergence_index]
    have hfin : l.toFinset = e.networks.toFinset := by
      ext x
      simp only [List.mem_toFinset]
      exact (hperm.mem_iff).symm
    rw [hfin]
  · intro e
    simp [Event.convergence_index, List.toFinset_append]
  · intro cs h
    simp [ConvergenceScore.ci_score, h]
  · intro e
    simp [scoreOne, ConvergenceScore.ci_score, Event.convergence_index]

/-- Witness for C7 at a concrete event: reordering `[CARBON, WATER]` to
`[WATER, CARBON]` leaves the convergence index unchanged, and the Converge
stage's unweighted score equals the distinct-network count. -/
theorem convergence_index_distinct_count_witness :
    List.Perm [MetabolicNetwork.CARBON, MetabolicNetwork.WATER]
      [MetabolicNetwork.WATER, MetabolicNetwork.CARBON]
    ∧ Event.convergence_index
        { evBase with networks := [MetabolicNetwork.WATER, MetabolicNetwork.CARBON] }
      = Event.convergence_index { evBase with networks := [.CARBON, .WATER] }
    ∧ ConvergenceScore.ci_score (scoreOne { evBase with networks := [.CARBON, .WATER] }) = 2 := by
  refine ⟨by decide, ?_, ?_⟩
  · exact convergence_index_distinct_count.2.1
      { evBase with networks := [.CARBON, .WATER] }
      [MetabolicNetwork.WATER, MetabolicNetwork.CARBON] (by decide)
  · rw [convergence_index_distinct_count.2.2.2.2
      { evBase with networks := [.CARBON, .WATER] }]
    decide

/-- Claim C8: the Resistance-link stage maps each event through `linkOne`;
an event whose `resistance_summary` was absent ends up with a non-null
summary containing the literal substring `[PENDING]`, and an event whose
summary was a non-empty string keeps it exactly unchanged. -/
theorem link_resistance_pending :
    (∀ events, link_resistance events = events.map linkOne)
    ∧ (∀ e : Event, e.resistance_summary = none →
        ∃ s, (linkOne e).resistance_summary = some s
          ∧ ∃ a b, s = a ++ "[PENDING]" ++ b)
    ∧ (∀ (e : Event) (s : String), e.resistance_summary = some s → s ≠ "" →
        (linkOne e).resistance_summary = some s) := by
  refine ⟨fun _ => rfl, ?_, ?_⟩
  · intro e h
    refine ⟨pendingSummary, ?_, "", " Resistance data not yet collected for this event. Requires follow-up from frontline/EJ sources.", by decide⟩
    simp [linkOne, pyStrTruthy, h]
  · intro e s h hne
    have ht : pyStrTruthy (some s) = true := by
      simpa [pyStrTruthy] using hne
    simp [linkOne, h, ht]

/-- Witness for C8: the base event has no resistance summary; after the
stage it carries a summary containing `[PENDING]`. -/
theorem link_resistance_pending_witness :
    evBase.resistance_summary = none
    ∧ ∃ s, (linkOne evBase).resistance_summary = some s
        ∧ ∃ a b, s = a ++ "[PENDING]" ++ b :=
  ⟨rfl, link_resistance_pending.2.1 evBase rfl⟩

/-! ### Helper lemmas about Stage 1 (Tag) -/

theorem tagCheck_none_iff (events : List Event) :
    tagCheck events = none ↔ ∀ e ∈ events, e.networks ≠ [] ∧ e.layers ≠ [] := by
  induction events with
  | nil => simp [tagCheck]
  | cons e rest ih =>
      unfold tagCheck
      split_ifs with h1 h2
      · simp only [List.mem_cons]
        constructor
        · intro h
          exact absurd h (by simp)
        · intro h
          exact absurd h1 (h e (Or.inl rfl)).1
      · simp only [List.mem_cons]
        constructor
        · intro h
          exact absurd h (by simp)
        · intro h
          exact absurd h2 (h e (Or.inl rfl)).2
      · rw [ih]
        constructor
        · intro h e' he'
          rcases List.mem_cons.mp he' with he'' | he''
          · subst he''
            exact ⟨h1, h2⟩
          · exact h e' he''
        · intro h e' he'
          exact h e' (List.mem_cons_of_mem e he')

theorem tagCheck_some_offender (events : List Event) (err : TagError) :
    tagCheck events = some err →
    ∃ e ∈ events, (e.networks = [] ∧ err = TagError.untaggedNetwork e.id)
      ∨ (e.layers = [] ∧ err = TagError.untaggedLayer e.id) := by
  induction events with
  | nil => intro h; exact absurd h (by simp [tagCheck])
  | cons e rest ih =>
      unfold tagCheck
      split_ifs with h1 h2
      · intro h
        exact ⟨e, List.mem_cons_self e rest, Or.inl ⟨h1, (Option.some_inj.mp h).symm⟩⟩
      · intro h
        exact ⟨e, List.mem_cons_self e rest, Or.inr ⟨h2, (Option.some_inj.mp h).symm⟩⟩
      · intro h
        obtain ⟨e', he', hcase⟩ := ih h
        exact ⟨e', List.mem_cons_of_mem e he', hcase⟩

/-- Claim C5: the Tag stage fails exactly when some event has an empty
`networks` or `layers` list; the error names an offending event's id and
distinguishes the missing-network from the missing-layer case; a failure
yields no partial result (the whole call returns the error), while a batch
in which every event is fully tagged is returned unchanged. -/
theorem tag_validation (events : List Event) :
    ((∃ e ∈ events, e.networks = [] ∨ e.layers = []) ↔
      ∃ err, tag events = Except.error err)
    ∧ (∀ err, tag events = Except.error err →
        ∃ e ∈ events, (e.networks = [] ∧ err = TagError.untaggedNetwork e.id)
          ∨ (e.layers = [] ∧ err = TagError.untaggedLayer e.id))
    ∧ ((∀ e ∈ events, e.networks ≠ [] ∧ e.layers ≠ []) →
        tag events = Except.ok events)
    ∧ (∀ rd err, tag events = Except.error err →
        runStages rd events = Except.error err) := by
  refine ⟨⟨?_, ?_⟩, ?_, ?_, ?_⟩
  · intro ⟨e, he, hbad⟩
    rcases hcheck : tagCheck events with _ | err
    · exfalso
      have := (tagCheck_none_iff events).mp hcheck e he
      rcases hbad with hb | hb
      · exact this.1 hb
      · exact this.2 hb
    · exact ⟨err, by simp [tag, hcheck]⟩
  · intro ⟨err, herr⟩
    rcases hcheck : tagCheck events with _ | err'
    · simp [tag, hcheck] at herr
    · obtain ⟨e, he, hcase⟩ := tagCheck_some_offender events err' hcheck
      rcases hcase with ⟨hn, -⟩ | ⟨hl, -⟩
      · exact ⟨e, he, Or.inl hn⟩
      · exact ⟨e, he, Or.inr hl⟩
  · intro err herr
    rcases hcheck : tagCheck events with _ | err'
    · simp [tag, hcheck] at herr
    · have := tagCheck_some_offender events err' hcheck
      rw [tag, hcheck] at herr
      simp only [Except.error.injEq] at herr
      subst herr
      exact this
  · intro h
    have hcheck : tagCheck events = none := (tagCheck_none_iff events).mpr h
    simp [tag, hcheck]
  · intro rd err herr
    unfold runStages
    rw [herr]

/-- Witness for C5: an event with no networks makes the Tag stage fail, and
the fully tagged base event passes through unchanged. -/
theorem tag_validation_witness :
    (∃ err, tag [{ evBase with networks := [] }] = Except.error err)
    ∧ tag [evBase] = Except.ok [evBase] :=
  ⟨(tag_validation [{ evBase with networks := [] }]).1.mp
      ⟨{ evBase with networks := [] }, by simp, Or.inl rfl⟩,
    (tag_validation [evBase]).2.2.1 (by decide)⟩

/-! ### Stage 5 (Triage) specification -/

/-- Some crossing on the event has status EXCEEDED. -/
def hasExceeded (e : Event) : Prop :=
  ∃ tc ∈ e.threshold_crossings, tc.metric.status = ThresholdStatus.EXCEEDED

/-- Some crossing on the event has status APPROACHING. -/
def hasApproaching (e : Event) : Prop :=
  ∃ tc ∈ e.threshold_crossings, tc.metric.status = ThresholdStatus.APPROACHING

/-- The looked-up convergence score exists and its `ci_score` is at least
`t`; an absent score is no convergence signal. -/
def ciAtLeast (cs : Option ConvergenceScore) (t : ℚ) : Prop :=
  ∃ c, cs = some c ∧ t ≤ c.ci_score

theorem anyExceededB_iff (e : Event) :
    anyExceededB e = true ↔ hasExceeded e := by
  simp [anyExceededB, hasExceeded, List.any_eq_true]

theorem anyApproachingB_iff (e : Event) :
    anyApproachingB e = true ↔ hasApproaching e := by
  simp [anyApproachingB, hasApproaching, List.any_eq_true]

theorem csGE_iff (cs : Option ConvergenceScore) (t : ℚ) :
    csGE cs t = true ↔ ciAtLeast cs t := by
  cases cs <;> simp [csGE, ciAtLeast]

theorem csGE_mono (cs : Option ConvergenceScore) {s t : ℚ} (h : s ≤ t) :
    csGE cs t = true → csGE cs s = true := by
  cases cs with
  | none => simp [csGE]
  | some c =>
      simp only [csGE, decide_eq_true_eq]
      intro ht
      linarith

/-- Claim C2: the Triage stage maps each event through `triageOne`, which
looks up the event's convergence score by event id and assigns the alert
level first-match-wins: SYSTEMIC if `ci_score ≥ 4` and some crossing is
EXCEEDED; else CRITICAL if `ci_score ≥ 3` and some crossing EXCEEDED; else
ALERT if some crossing EXCEEDED; else MONITOR if some crossing APPROACHING
or `ci_score ≥ 2`; else WATCH.  An absent score means no `ci_score` rule
can fire, and triage changes nothing but the alert level. -/
theorem triage_rule_order :
    (∀ events scores, triage events scores = events.map (triageOne scores))
    ∧ (∀ (scores : List ConvergenceScore) (e : Event),
        (ciAtLeast (scoreLookup scores e.id) 4 ∧ hasExceeded e →
          (triageOne scores e).alert_level = AlertLevel.SYSTEMIC)
        ∧ (¬ ciAtLeast (scoreLookup scores e.id) 4
            ∧ ciAtLeast (scoreLookup scores e.id) 3 ∧ hasExceeded e →
          (triageOne scores e).alert_level = AlertLevel.CRITICAL)
        ∧ (¬ ciAtLeast (scoreLookup scores e.id) 3 ∧ hasExceeded e →
          (triageOne scores e).alert_level = AlertLevel.ALERT)
        ∧ (¬ hasExceeded e
            ∧ (hasApproaching e ∨ ciAtLeast (scoreLookup scores e.id) 2) →
          (triageOne scores e).alert_level = AlertLevel.MONITOR)
        ∧ (¬ hasExceeded e ∧ ¬ hasApproaching e
            ∧ ¬ ciAtLeast (scoreLookup scores e.id) 2 →
          (triageOne scores e).alert_level = AlertLevel.WATCH)
        ∧ (scoreLookup scores e.id = none →
            ∀ t, ¬ ciAtLeast (scoreLookup scores e.id) t)
        ∧ triageOne scores e =
            { e with alert_level := (triageOne scores e).alert_level }) := by
  refine ⟨fun _ _ => rfl, ?_⟩
  intro scores e
  refine ⟨?_, ?_, ?_, ?_, ?_, ?_, ?_⟩
  · rintro ⟨hci, hex⟩
    have h4 : csGE (scoreLookup scores e.id) 4 = true := (csGE_iff _ _).mpr hci
    have hx : anyExceededB e = true := (anyExceededB_iff e).mpr hex
    simp [triageOne, h4, hx]
  · rintro ⟨hnot4, hci3, hex⟩
    have h4 : csGE (scoreLookup scores e.id) 4 = false :=
      Bool.eq_false_iff.mpr (fun hb => hnot4 ((csGE_iff _ _).mp hb))
    have h3 : csGE (scoreLookup scores e.id) 3 = true := (csGE_iff _ _).mpr hci3
    have hx : anyExceededB e = true := (anyExceededB_iff e).mpr hex
    simp [triageOne, h4, h3, hx]
  · rintro ⟨hnot3, hex⟩
    have h3 : csGE (scoreLookup scores e.id) 3 = false :=
      Bool.eq_false_iff.mpr (fun hb => hnot3 ((csGE_iff _ _).mp hb))
    have h4 : csGE (scoreLookup scores e.id) 4 = false := by
      cases h4t : csGE (scoreLookup scores e.id) 4
      · rfl
      · exact absurd (csGE_mono (scoreLookup scores e.id)
          (show (3:ℚ) ≤ 4 by norm_num) h4t) (by simp [h3])
    have hx : anyExceededB e = true := (anyExceededB_iff e).mpr hex
    simp [triageOne, h4, h3, hx]
  · rintro ⟨hnex, hmon⟩
    have hx : anyExceededB e = false :=
      Bool.eq_false_iff.mpr (fun hb => hnex ((anyExceededB_iff e).mp hb))
    have hor : (anyApproachingB e || csGE (scoreLookup scores e.id) 2) = true := by
      rcases hmon with hap | hci
      · simp [(anyApproachingB_iff e).mpr hap]
      · simp [(csGE_iff _ _).mpr hci]
    simp [triageOne, hx, hor]
  · rintro ⟨hnex, hnap, hnci⟩
    have hx : anyExceededB e = false :=
      Bool.eq_false_iff.mpr (fun hb => hnex ((anyExceededB_iff e).mp hb))
    have ha : anyApproachingB e = false :=
      Bool.eq_false_iff.mpr (fun hb => hnap ((anyApproachingB_iff e).mp hb))
    have h2 : csGE (scoreLookup scores e.id) 2 = false :=
      Bool.eq_false_iff.mpr (fun hb => hnci ((csGE_iff _ _).mp hb))
    simp [triageOne, hx, ha, h2]
  · intro hnone t
    rw [hnone]
    rintro ⟨c, hc, -⟩
    exact absurd hc (by simp)
  · simp only [triageOne]
    split_ifs <;> rfl

/-- Witness for C2: a four-network event with an EXCEEDED crossing, scored
by the Converge stage, is triaged SYSTEMIC. -/
theorem triage_rule_order_witness :
    (ciAtLeast
        (scoreLookup [scoreOne { evBase with
          networks := [.CARBON, .WATER, .SOIL, .MINERAL],
          threshold_crossings := [tcExceeded] }] "test-001") 4
      ∧ hasExceeded { evBase with
          networks := [.CARBON, .WATER, .SOIL, .MINERAL],
          threshold_crossings := [tcExceeded] })
    ∧ (triageOne
        [scoreOne { evBase with
          networks := [.CARBON, .WATER, .SOIL, .MINERAL],
          threshold_crossings := [tcExceeded] }]
        { evBase with
          networks := [.CARBON, .WATER, .SOIL, .MINERAL],
          threshold_crossings := [tcExceeded] }).alert_level = AlertLevel.SYSTEMIC := by
  have hhyp : ciAtLeast
      (scoreLookup [scoreOne { evBase with
        networks := [.CARBON, .WATER, .SOIL, .MINERAL],
        threshold_crossings := [tcExceeded] }] "test-001") 4
      ∧ hasExceeded { evBase with
          networks := [.CARBON, .WATER, .SOIL, .MINERAL],
          threshold_crossings := [tcExceeded] } := by
    constructor
    · refine ⟨scoreOne { evBase with
        networks := [.CARBON, .WATER, .SOIL, .MINERAL],
        threshold_crossings := [tcExceeded] }, by decide, by decide⟩
    · exact ⟨tcExceeded, by decide, by decide⟩
  exact ⟨hhyp, (triage_rule_order.2 _ _).1 hhyp⟩

/-! ### Stage 7 (Verify) specification -/

/-- The three independent triangulation rules of the Verify stage: fewer
than 2 sources; 2+ sources but fewer than 2 distinct tiers; one or more
actors attributed with fewer than 3 sources. -/
def ruleFires (e : Event) : Prop :=
  e.sources.length < 2
  ∨ (2 ≤ e.sources.length ∧ (e.sources.map Source.tier).toFinset.card < 2)
  ∨ (e.actors ≠ [] ∧ e.sources.length < 3)

instance (e : Event) : Decidable (ruleFires e) := by
  unfold ruleFires
  infer_instance

theorem mark_map_idem (l : List Source) :
    ((l.map fun s => { s with provisional := true }).map
        fun s => { s with provisional := true })
      = l.map fun s => { s with provisional := true } := by
  induction l with
  | nil => rfl
  | cons s l ih => simp only [List.map_cons, ih]

theorem markAll_idem (e : Event) :
    markAllProvisional (markAllProvisional e) = markAllProvisional e := by
  cases e
  simp only [markAllProvisional, mark_map_idem]

theorem mark_map_tiers (l : List Source) :
    (l.map fun s => { s with provisional := true }).map Source.tier
      = l.map Source.tier := by
  induction l with
  | nil => rfl
  | cons s l ih => simp only [List.map_cons, ih]

theorem markAll_sources_length (e : Event) :
    (markAllProvisional e).sources.length = e.sources.length := by
  simp [markAllProvisional]

theorem markAll_actors (e : Event) :
    (markAllProvisional e).actors = e.actors := rfl

theorem ruleFires_markAll (e : Event) :
    ruleFires (markAllProvisional e) ↔ ruleFires e := by
  unfold ruleFires
  rw [markAll_sources_length, markAll_actors]
  have ht : ((markAllProvisional e).sources.map Source.tier)
      = e.sources.map Source.tier := by
    simp only [markAllProvisional]
    exact mark_map_tiers e.sources
  rw [ht]

theorem verifyOne_eq (e : Event) :
    verifyOne e = if ruleFires e then markAllProvisional e else e := by
  simp only [verifyOne]
  by_cases h1 : e.sources.length < 2
  · rw [if_pos h1]
    by_cases h3 : (!(markAllProvisional e).actors.isEmpty
        && decide ((markAllProvisional e).sources.length < 3)) = true
    · rw [if_pos h3, markAll_idem, if_pos (show ruleFires e from Or.inl h1)]
    · rw [if_neg h3, if_pos (show ruleFires e from Or.inl h1)]
  · rw [if_neg h1]
    by_cases h2 : ((e.sources.map Source.tier).toFinset.card < 2)
    · rw [if_pos h2]
      by_cases h3 : (!(markAllProvisional e).actors.isEmpty
          && decide ((markAllProvisional e).sources.length < 3)) = true
      · rw [if_pos h3, markAll_idem,
          if_pos (show ruleFires e from Or.inr (Or.inl ⟨Nat.le_of_not_lt h1, h2⟩))]
      · rw [if_neg h3, if_pos (show ruleFires e from Or.inr (Or.inl ⟨Nat.le_of_not_lt h1, h2⟩))]
    · rw [if_neg h2]
      by_cases h3 : (!e.actors.isEmpty && decide (e.sources.length < 3)) = true
      · rw [if_pos h3]
        have hfires : ruleFires e := by
          rcases Bool.and_eq_true_iff.mp h3 with ⟨ha, hl⟩
          refine Or.inr (Or.inr ⟨?_, of_decide_eq_true hl⟩)
          intro hnil
          rw [hnil] at ha
          exact absurd ha (by decide)
        rw [if_pos hfires]
      · rw [if_neg h3]
        have hnot : ¬ ruleFires e := by
          rintro (hf | hf | hf)
          · exact h1 hf
          · exact h2 hf.2
          · refine h3 ?_
            rcases hf with ⟨hne, hlt⟩
            refine Bool.and_eq_true_iff.mpr ⟨?_, decide_eq_true hlt⟩
            cases hl : e.actors
            · exact absurd hl hne
            · simp [hl, List.isEmpty]
        rw [if_neg hnot]

/-- Claim C4: the Verify stage maps each event through `verifyOne`; whenever
any of the three triangulation rules fires, every source on the event is
marked provisional (all-or-nothing); when no rule fires the event is left
untouched; a source already provisional is never un-marked; and running
Verify twice equals running it once. -/
theorem verify_triangulation :
    (∀ events, verify events = events.map verifyOne)
    ∧ (∀ e : Event, ruleFires e →
        ∀ s ∈ (verifyOne e).sources, s.provisional = true)
    ∧ (∀ e : Event, ¬ ruleFires e → verifyOne e = e)
    ∧ (∀ (e : Event) (s : Source), s ∈ e.sources → s.provisional = true →
        s ∈ (verifyOne e).sources)
    ∧ (∀ events, verify (verify events) = verify events) := by
  have hidem : ∀ e, verifyOne (verifyOne e) = verifyOne e := by
    intro e
    rw [verifyOne_eq e]
    by_cases h : ruleFires e
    · rw [if_pos h, verifyOne_eq, if_pos ((ruleFires_markAll e).mpr h), markAll_idem]
    · rw [if_neg h, verifyOne_eq, if_neg h]
  refine ⟨fun _ => rfl, ?_, ?_, ?_, ?_⟩
  · intro e hf s hs
    rw [verifyOne_eq, if_pos hf] at hs
    simp only [markAllProvisional, List.mem_map] at hs
    obtain ⟨a, -, rfl⟩ := hs
    rfl
  · intro e hf
    rw [verifyOne_eq, if_neg hf]
  · intro e s hs hprov
    rw [verifyOne_eq]
    split_ifs with hf
    · simp only [markAllProvisional, List.mem_map]
      refine ⟨s, hs, ?_⟩
      cases s
      cases hprov
      rfl
    · exact hs
  · intro events
    simp only [verify, List.map_map]
    induction events with
    | nil => rfl
    | cons e es ih =>
        simp only [List.map_cons, List.map_map] at ih ⊢
        rw [ih]
        simp only [Function.comp, hidem e]

/-- Witness for C4: an event with a single source fires the first rule and
its source ends up provisional. -/
theorem verify_triangulation_witness :
    ruleFires { evBase with sources := [srcA] }
    ∧ { srcA with provisional := true }
        ∈ (verifyOne { evBase with sources := [srcA] }).sources
    ∧ Source.provisional { srcA with provisional := true } = true := by
  have hf : ruleFires { evBase with sources := [srcA] } := by decide
  have hm : { srcA with provisional := true }
      ∈ (verifyOne { evBase with sources := [srcA] }).sources := by decide
  exact ⟨hf, hm,
    verify_triangulation.2.1 { evBase with sources := [srcA] } hf
      { srcA with provisional := true } hm⟩

/-- Claim C10: `recommended_alert_level` is SYSTEMIC for `ci_score ≥ 4`,
CRITICAL on `[3,4)`, ALERT on `[2,3)`, MONITOR below 2, and never WATCH; so
an unweighted single-network score is recommended MONITOR, strictly above
the WATCH level the Triage stage assigns that event absent any crossings. -/
theorem recommended_alert_level_breakpoints (cs : ConvergenceScore) :
    (4 ≤ cs.ci_score → cs.recommended_alert_level = AlertLevel.SYSTEMIC)
    ∧ (3 ≤ cs.ci_score → cs.ci_score < 4 →
        cs.recommended_alert_level = AlertLevel.CRITICAL)
    ∧ (2 ≤ cs.ci_score → cs.ci_score < 3 →
        cs.recommended_alert_level = AlertLevel.ALERT)
    ∧ (cs.ci_score < 2 → cs.recommended_alert_level = AlertLevel.MONITOR)
    ∧ cs.recommended_alert_level ≠ AlertLevel.WATCH
    ∧ (cs.severity_weights = [] → cs.networks.toFinset.card = 1 →
        ∀ (scores : List ConvergenceScore) (e : Event),
          e.threshold_crossings = [] → scoreLookup scores e.id = some cs →
          cs.recommended_alert_level = AlertLevel.MONITOR
          ∧ (triageOne scores e).alert_level = AlertLevel.WATCH
          ∧ alertRank ((triageOne scores e).alert_level)
              < alertRank cs.recommended_alert_level) := by
  have hsys : ∀ h : 4 ≤ cs.ci_score,
      cs.recommended_alert_level = AlertLevel.SYSTEMIC := by
    intro h
    simp [ConvergenceScore.recommended_alert_level, h]
  have hcrit : ∀ (h3 : 3 ≤ cs.ci_score), cs.ci_score < 4 →
      cs.recommended_alert_level = AlertLevel.CRITICAL := by
    intro h3 h4
    rw [ConvergenceScore.recommended_alert_level,
      if_neg (by linarith), if_pos h3]
  have halert : ∀ (h2 : 2 ≤ cs.ci_score), cs.ci_score < 3 →
      cs.recommended_alert_level = AlertLevel.ALERT := by
    intro h2 h3
    rw [ConvergenceScore.recommended_alert_level,
      if_neg (by linarith), if_neg (by linarith), if_pos h2]
  have hmon : cs.ci_score < 2 →
      cs.recommended_alert_level = AlertLevel.MONITOR := by
    intro h2
    rw [ConvergenceScore.recommended_alert_level,
      if_neg (by linarith), if_neg (by linarith), if_neg (by linarith)]
  refine ⟨hsys, hcrit, halert, hmon, ?_, ?_⟩
  · unfold ConvergenceScore.recommended_alert_level
    split_ifs <;> simp
  · intro hw hcard scores e hcr hlook
    have hci : cs.ci_score = 1 := by
      rw [ConvergenceScore.ci_score, if_pos hw, hcard]
      norm_num
    have hrec : cs.recommended_alert_level = AlertLevel.MONITOR :=
      hmon (by rw [hci]; norm_num)
    have hx : anyExceededB e = false := by
      simp [anyExceededB, hcr]
    have ha : anyApproachingB e = false := by
      simp [anyApproachingB, hcr]
    have h2 : csGE (scoreLookup scores e.id) 2 = false := by
      rw [hlook]
      simp only [csGE, decide_eq_false_iff_not]
      rw [hci]
      norm_num
    have hwatch : (triageOne scores e).alert_level = AlertLevel.WATCH := by
      simp [triageOne, hx, ha, h2]
    refine ⟨hrec, hwatch, ?_⟩
    rw [hwatch, hrec]
    decide

/-- Witness for C10: the Converge-stage score of the single-network base
event is recommended MONITOR while Triage leaves the crossing-free event at
WATCH, a strictly lower rank. -/
theorem recommended_alert_level_breakpoints_witness :
    (scoreOne evBase).severity_weights = []
    ∧ (scoreOne evBase).networks.toFinset.card = 1
    ∧ evBase.threshold_crossings = []
    ∧ scoreLookup [scoreOne evBase] evBase.id = some (scoreOne evBase)
    ∧ ((scoreOne evBase).recommended_alert_level = AlertLevel.MONITOR
        ∧ (triageOne [scoreOne evBase] evBase).alert_level = AlertLevel.WATCH
        ∧ alertRank ((triageOne [scoreOne evBase] evBase).alert_level)
            < alertRank ((scoreOne evBase).recommended_alert_level)) := by
  refine ⟨rfl, by decide, rfl, by decide, ?_⟩
  exact (recommended_alert_level_breakpoints (scoreOne evBase)).2.2.2.2.2
    rfl (by decide) [scoreOne evBase] evBase rfl (by decide)

/-! ### Helper lemmas: the later stages preserve id and networks, so the
Converge-stage scores can be recomputed from the final event set. -/

theorem scoreOne_linkOne (e : Event) : scoreOne (linkOne e) = scoreOne e := by
  unfold linkOne
  split_ifs <;> rfl

theorem scoreOne_triageOne (scores : List ConvergenceScore) (e : Event) :
    scoreOne (triageOne scores e) = scoreOne e := by
  simp only [triageOne]
  split_ifs <;> rfl

theorem scoreOne_verifyOne (e : Event) :
    scoreOne (verifyOne e) = scoreOne e := by
  rw [verifyOne_eq]
  split_ifs <;> rfl

theorem score_convergence_map (f : Event → Event)
    (hf : ∀ e, scoreOne (f e) = scoreOne e) (events : List Event) :
    score_convergence (events.map f) = score_convergence events := by
  induction events with
  | nil => rfl
  | cons e es ih =>
      simp only [score_convergence, List.map_cons] at ih ⊢
      rw [hf e, ih]

/-- Claim C6: a completed run's derived collections are exactly filters of
the final event and score sets: `threshold_crossings` holds precisely the
crossings of result events whose metric status is EXCEEDED,
`convergence_nodes` precisely the scores (recomputable from the final event
set) with `ci_score ≥ 2`, and `alert_events` precisely the result events at
ALERT, CRITICAL or SYSTEMIC. -/
theorem run_result_filters (rd : PyDate) (ies : List Event)
    (res : PipelineResult) (h : runStages rd ies = Except.ok res) :
    (∀ tc, tc ∈ res.threshold_crossings ↔
        ∃ e ∈ res.events, tc ∈ e.threshold_crossings
          ∧ tc.metric.status = ThresholdStatus.EXCEEDED)
    ∧ (∀ cs, cs ∈ res.convergence_nodes ↔
        cs ∈ score_convergence res.events ∧ 2 ≤ cs.ci_score)
    ∧ (∀ e, e ∈ res.alert_events ↔
        e ∈ res.events ∧ (e.alert_level = AlertLevel.ALERT
          ∨ e.alert_level = AlertLevel.CRITICAL
          ∨ e.alert_level = AlertLevel.SYSTEMIC)) := by
  unfold runStages at h
  cases htag : tag ies with
  | error err =>
      rw [htag] at h
      exact absurd h (by simp)
  | ok evs =>
      rw [htag] at h
      simp only [Except.ok.injEq] at h
      subst h
      have hscores : score_convergence
          (verify (triage (link_resistance (evaluate_thresholds evs))
            (score_convergence (evaluate_thresholds evs))))
          = score_convergence (evaluate_thresholds evs) := by
        rw [show verify (triage (link_resistance (evaluate_thresholds evs))
              (score_convergence (evaluate_thresholds evs)))
            = (triage (link_resistance (evaluate_thresholds evs))
              (score_convergence (evaluate_thresholds evs))).map verifyOne from rfl,
          score_convergence_map verifyOne scoreOne_verifyOne,
          show triage (link_resistance (evaluate_thresholds evs))
              (score_convergence (evaluate_thresholds evs))
            = (link_resistance (evaluate_thresholds evs)).map
              (triageOne (score_convergence (evaluate_thresholds evs))) from rfl,
          score_convergence_map _ (scoreOne_triageOne _),
          show link_resistance (evaluate_thresholds evs)
            = (evaluate_thresholds evs).map linkOne from rfl,
          score_convergence_map linkOne scoreOne_linkOne]
      refine ⟨?_, ?_, ?_⟩
      · intro tc
        simp [List.mem_flatMap, List.mem_filter]
      · intro cs
        simp only [hscores]
        simp [List.mem_filter]
      · intro e
        simp [List.mem_filter, or_assoc]

/-- The pipeline result of a completed run over one valid event with an
exceeded crossing, used as the concrete C6 witness input. -/
def sampleRes : PipelineResult :=
  match runStages d0 [{ evBase with threshold_crossings := [tcExceeded] }] with
  | .ok r => r
  | .error _ => { run_date := d0 }

/-- Witness for C6: on the sample run, the EXCEEDED crossing appears in the
result's `threshold_crossings` exactly because a result event carries it. -/
theorem run_result_filters_witness :
    runStages d0 [{ evBase with threshold_crossings := [tcExceeded] }]
      = Except.ok sampleRes
    ∧ (tcExceeded ∈ sampleRes.threshold_crossings ↔
        ∃ e ∈ sampleRes.events, tcExceeded ∈ e.threshold_crossings
          ∧ tcExceeded.metric.status = ThresholdStatus.EXCEEDED) := by
  have hrun : runStages d0 [{ evBase with threshold_crossings := [tcExceeded] }]
      = Except.ok sampleRes := by rfl
  exact ⟨hrun, (run_result_filters d0 _ sampleRes hrun).1 tcExceeded⟩

/-! ### Claim C1: what Intake actually does on a failing source -/

/-- A valid event as returned by a healthy source. -/
def evGood : Event := { evBase with id := "good-001" }

/-- A source whose fetch succeeds with one event. -/
def srcGoodFn : DataSource := fun _ => .ok [evGood]

/-- A source whose fetch raises a connection error. -/
def srcBadFn : DataSource := fun _ => .error "network down"

/-- Claim C1 (refuting evaluation): `intake` as coded has no per-source
error handling — with one healthy and one failing source registered it
propagates the failing source's exception instead of returning the healthy
source's events, and when every source fails it raises rather than
returning an empty sequence; no error log exists on the pipeline. -/
theorem intake_propagates_failure :
    intake [srcGoodFn, srcBadFn] d0 = Except.error "network down"
    ∧ intake [srcBadFn, srcBadFn] d0 = Except.error "network down" :=
  ⟨rfl, rfl⟩

end SMAE
